import Mathlib

/-!
Verification development for the big-bang-simulator repository.

Shallow embedding of the core physics engines and of the evolution
controller, together with theorems settling the specification claims.

Conventions used throughout:
- Python floats are idealised as exact rationals or reals.  Functions that
  contain no transcendental operation are stated over a general linear
  ordered field so they can be instantiated at the rationals, where
  evaluation is decidable; functions containing exp, sqrt, pi or real
  powers are stated over the reals.
- A Python function that can raise is embedded as a function into
  Except String; a Python function with no raise statement and no
  possible raising operation is embedded as a total function.
- The 3D numpy density grid of edge length n is embedded as a function
  of three natural-number indices, read only at indices below n; cell
  aggregates (mean, std, max, min) iterate over the n*n*n cells in the
  C order used by numpy flattening.
-/

namespace BigBangSim

/-! ### Thermodynamics engine (src/src/core/thermodynamics.py) -/

/-- Constants dataclass ThermodynamicsConstants of thermodynamics.py. -/
structure ThermodynamicsConstants (K : Type) where
  k_B : K
  h : K
  c : K
  eV_to_K : K
  eV_to_J : K
  sigma_SB : K
  a_rad : K
  g_eff_today : K
  g_eff_before_eewk : K

/-- Default field values of the ThermodynamicsConstants dataclass. -/
def defaultThermo {K : Type} [LinearOrderedField K] : ThermodynamicsConstants K :=
  ⟨1.380649e-23, 6.62607015e-34, 299792458.0, 1.1604518e4, 1.602176634e-19,
   5.670374419e-8, 7.5657e-16, 3.36, 106.75⟩

variable {K : Type} [LinearOrderedField K]

/-- ThermodynamicsEngine.temperature_from_scale_factor, with its explicit
ValueError for a non-positive scale factor embedded as Except.error.
The default argument T_today = 2.725 of the source is passed explicitly. -/
def temperature_from_scale_factor (a T_today : K) : Except String K :=
  if a ≤ 0 then Except.error ("Scale factor must be positive")
  else Except.ok (T_today / a)

/-- The value computed by temperature_from_scale_factor on its valid domain
(T_today / a); used by callers that only ever pass a positive scale factor. -/
def temperature_from_scale_factor_val (a T_today : K) : K :=
  T_today / a

/-- ThermodynamicsEngine.temperature_to_energy_eV: T / eV_to_K. -/
def temperature_to_energy_eV (c : ThermodynamicsConstants K) (T : K) : K :=
  T / c.eV_to_K

/-- ThermodynamicsEngine.identify_epoch: the fixed descending if/elif chain
on the energy equivalent T_eV, returning (epoch name, description). -/
def identify_epoch (c : ThermodynamicsConstants K) (T : K) : String × String :=
  let T_eV := temperature_to_energy_eV c T
  if T_eV > 1e27 then ("Planck", "Quantum gravity, all forces unified")
  else if T_eV > 1e23 then ("GUT", "Grand unification, inflation may occur")
  else if T_eV > 80e9 then ("Electroweak", "Electroweak symmetry breaking")
  else if T_eV > 150e6 then ("QCD", "Quark-hadron transition, confinement")
  else if T_eV > 1e6 then ("Lepton", "Neutrino decoupling, e⁺e⁻ annihilation")
  else if T_eV > 0.1e6 then ("Nucleosynthesis", "Light element formation")
  else if T_eV > 1 then ("Matter-Radiation Equality", "Matter starts dominating")
  else if T_eV > 0.25 then ("Recombination", "Atoms form, CMB released")
  else ("Matter-Dominated", "Structure formation, galaxies")

/-- Position of an epoch name in the fixed descending taxonomy of
identify_epoch (0 = Planck, ..., 8 = Matter-Dominated). -/
def epochIndexOfName (s : String) : ℕ :=
  if s = "Planck" then 0
  else if s = "GUT" then 1
  else if s = "Electroweak" then 2
  else if s = "QCD" then 3
  else if s = "Lepton" then 4
  else if s = "Nucleosynthesis" then 5
  else if s = "Matter-Radiation Equality" then 6
  else if s = "Recombination" then 7
  else 8

/-- The energy band of epoch number i, written out from the thresholds of
identify_epoch; band i holds exactly when the if/elif chain of the source
reaches its i-th branch.  Used to state that the bands tile the energy
axis with no overlap and no gap. -/
def bandPred (i : Fin 9) (E : K) : Prop :=
  match i with
  | 0 => 1e27 < E
  | 1 => 1e23 < E ∧ E ≤ 1e27
  | 2 => 80e9 < E ∧ E ≤ 1e23
  | 3 => 150e6 < E ∧ E ≤ 80e9
  | 4 => 1e6 < E ∧ E ≤ 150e6
  | 5 => 0.1e6 < E ∧ E ≤ 1e6
  | 6 => 1 < E ∧ E ≤ 0.1e6
  | 7 => 0.25 < E ∧ E ≤ 1
  | 8 => E ≤ 0.25

/-- The epoch (name, description) pair of band number i, in the order of
the source chain. -/
def epochTable (i : Fin 9) : String × String :=
  match i with
  | 0 => ("Planck", "Quantum gravity, all forces unified")
  | 1 => ("GUT", "Grand unification, inflation may occur")
  | 2 => ("Electroweak", "Electroweak symmetry breaking")
  | 3 => ("QCD", "Quark-hadron transition, confinement")
  | 4 => ("Lepton", "Neutrino decoupling, e⁺e⁻ annihilation")
  | 5 => ("Nucleosynthesis", "Light element formation")
  | 6 => ("Matter-Radiation Equality", "Matter starts dominating")
  | 7 => ("Recombination", "Atoms form, CMB released")
  | 8 => ("Matter-Dominated", "Structure formation, galaxies")

/-! ### Friedmann solver (src/src/core/friedmann.py) -/

/-- Dataclass CosmologicalParameters of friedmann.py (fields only; the
validation of __post_init__ is the separate function mkCosmologicalParameters). -/
structure CosmologicalParameters (K : Type) where
  G : K
  c : K
  H0 : K
  Omega_m0 : K
  Omega_r0 : K
  Omega_lambda0 : K
  Omega_k0 : K
  rho_crit_0 : K

/-- Default field values of the CosmologicalParameters dataclass. -/
def defaultCosmo {K : Type} [LinearOrderedField K] : CosmologicalParameters K :=
  ⟨6.67430e-11, 299792458.0, 2.184e-18, 0.315, 9.2e-5, 0.685, 0.0, 8.5e-27⟩

/-- Construction of CosmologicalParameters with the four density fractions
given (the other fields keep their dataclass defaults), followed by the
__post_init__ validation: a ValueError exactly when the fractions differ
from 1 by more than 1e-3.  The critical-density comparison of
__post_init__ only prints a warning and never raises nor modifies any
field, so it does not appear in the result. -/
def mkCosmologicalParameters (Om Orad Ol Ok : K) : Except String (CosmologicalParameters K) :=
  if |Om + Orad + Ol + Ok - 1| > 1e-3 then
    Except.error ("Density parameters do not sum to 1")
  else Except.ok ⟨6.67430e-11, 299792458.0, 2.184e-18, Om, Orad, Ol, Ok, 8.5e-27⟩

/-- FriedmannSolver: the stored parameters together with the three physical
densities today computed in __init__ (the trajectory history lists, used
only by solve and validate_solution, are not modelled). -/
structure FriedmannSolver (K : Type) where
  params : CosmologicalParameters K
  rho_m0 : K
  rho_r0 : K
  rho_lambda0 : K

/-- FriedmannSolver.__init__ on a parameter record. -/
def mkFriedmannSolver (p : CosmologicalParameters K) : FriedmannSolver K :=
  ⟨p, p.Omega_m0 * p.rho_crit_0, p.Omega_r0 * p.rho_crit_0, p.Omega_lambda0 * p.rho_crit_0⟩

/-- FriedmannSolver.density_matter: rho_m0 / a^3. -/
def density_matter (s : FriedmannSolver K) (a : K) : K :=
  s.rho_m0 / a ^ 3

/-- FriedmannSolver.density_radiation: rho_r0 / a^4. -/
def density_radiation (s : FriedmannSolver K) (a : K) : K :=
  s.rho_r0 / a ^ 4

/-- FriedmannSolver.density_dark_energy: the constant rho_lambda0
(the scale-factor argument is ignored, as in the source). -/
def density_dark_energy (s : FriedmannSolver K) (_a : K) : K :=
  s.rho_lambda0

/-- FriedmannSolver.total_density. -/
def total_density (s : FriedmannSolver K) (a : K) : K :=
  density_matter s a + density_radiation s a + density_dark_energy s a

/-- FriedmannSolver.hubble_parameter: H_squared = 8 pi G / 3 * rho, minus the
curvature term only when Omega_k0 is nonzero, then sqrt(max(H_squared, 0)). -/
noncomputable def hubble_parameter (s : FriedmannSolver ℝ) (a : ℝ) : ℝ :=
  let H_squared := (8 * Real.pi * s.params.G / 3) * total_density s a
  let H_squared := if s.params.Omega_k0 ≠ 0
    then H_squared - s.params.Omega_k0 * s.params.H0 ^ 2 / a ^ 2
    else H_squared
  Real.sqrt (max H_squared 0)

/-! ### Nucleosynthesis engine (src/src/core/nucleosynthesis.py) -/

/-- Constants dataclass NucleosynthesisConstants of nucleosynthesis.py. -/
structure NucleosynthesisConstants where
  m_n : ℝ
  m_p : ℝ
  m_e : ℝ
  delta_m : ℝ
  tau_n : ℝ
  B_d : ℝ
  B_He3 : ℝ
  B_He4 : ℝ
  k_B : ℝ
  c : ℝ
  eta : ℝ

/-- Default field values of the NucleosynthesisConstants dataclass. -/
def defaultNuc : NucleosynthesisConstants :=
  ⟨939.57, 938.27, 0.511, 1.293, 879.4, 2.224, 7.718, 28.296, 8.617e-11,
   299792458.0, 6.1e-10⟩

/-- NucleosynthesisEngine.neutron_proton_ratio: returns 0 for a non-positive
temperature (the source has no raise here: it silently returns 0), and the
Boltzmann factor exp(-delta_m / T) otherwise. -/
noncomputable def neutron_proton_ratio (c : NucleosynthesisConstants) (T_MeV : ℝ) : ℝ :=
  if T_MeV ≤ 0 then 0
  else Real.exp (-c.delta_m / T_MeV)

/-- NucleosynthesisEngine.freeze_out_ratio (source default argument 0.7 MeV
is passed explicitly by callers). -/
noncomputable def freeze_out_ratio (c : NucleosynthesisConstants) (T_freeze_MeV : ℝ) : ℝ :=
  neutron_proton_ratio c T_freeze_MeV

/-- NucleosynthesisEngine.neutron_fraction_with_decay: exponential neutron
decay applied to the frozen ratio, converted to (neutron, proton) fractions. -/
noncomputable def neutron_fraction_with_decay (c : NucleosynthesisConstants)
    (n_p_initial time_elapsed : ℝ) : ℝ × ℝ :=
  let survival := Real.exp (-time_elapsed / c.tau_n)
  let n_p_current := n_p_initial * survival
  (n_p_current / (1 + n_p_current), 1 / (1 + n_p_current))

/-- NucleosynthesisEngine.helium4_mass_fraction: 2 * X_n. -/
def helium4_mass_fraction (neutron_fraction : ℝ) : ℝ :=
  2 * neutron_fraction

/-- NucleosynthesisEngine.hydrogen_mass_fraction: 1 - Y_He4. -/
def hydrogen_mass_fraction (helium4_fraction : ℝ) : ℝ :=
  1 - helium4_fraction

/-- NucleosynthesisEngine.deuterium_abundance: empirical power law
2.6e-5 * (eta / 6e-10)^(-1.6), with eta defaulting to the constants table
when the caller passes none (Python None). -/
noncomputable def deuterium_abundance (c : NucleosynthesisConstants)
    (eta : Option ℝ) (_T_final_MeV : ℝ) : ℝ :=
  let e := eta.getD c.eta
  2.6e-5 * (e / 6e-10) ^ (-(1.6 : ℝ))

/-- The abundance bundle returned by calculate_abundances. -/
structure AbundanceResult where
  H : ℝ
  He4 : ℝ
  D_H : ℝ
  n_p_freeze : ℝ
  X_n_final : ℝ
  X_p_final : ℝ

/-- NucleosynthesisEngine.calculate_abundances.  The argument
T_nuc_start_MeV is accepted but never read, exactly as in the source.
None of the operations in the body can raise (the T <= 0 case of
neutron_proton_ratio returns 0 instead of raising, every denominator
1 + n_p_current is at least 1 on the values produced here, and numpy
float arithmetic raises no exception), so the embedding is total. -/
noncomputable def calculate_abundances (c : NucleosynthesisConstants)
    (T_freeze_MeV _T_nuc_start_MeV time_to_nucleosynthesis : ℝ) : AbundanceResult :=
  let n_p_freeze := freeze_out_ratio c T_freeze_MeV
  let fr := neutron_fraction_with_decay c n_p_freeze time_to_nucleosynthesis
  let Y_He4 := helium4_mass_fraction fr.1
  let Y_H := hydrogen_mass_fraction Y_He4
  let D_H := deuterium_abundance c none 0.03
  ⟨Y_H, Y_He4, D_H, n_p_freeze, fr.1, fr.2⟩

/-! ### Universe controller (src/src/simulation/universe.py)

The density grid of edge length n is a function of three indices, read at
indices 0..n-1; aggregates run over the n*n*n cells in numpy C order, with
cell number m at indices (m / (n*n), (m / n) % n, m % n). -/

/-- Sum of a cell function over all n*n*n cells of the grid. -/
def fieldSum (n : ℕ) (f : ℕ → ℕ → ℕ → ℝ) : ℝ :=
  ∑ m ∈ Finset.range (n * n * n), f (m / (n * n)) ((m / n) % n) (m % n)

/-- np.mean over the grid. -/
noncomputable def fieldMean (n : ℕ) (f : ℕ → ℕ → ℕ → ℝ) : ℝ :=
  fieldSum n f / (n * n * n : ℕ)

/-- np.std over the grid (population standard deviation). -/
noncomputable def fieldStd (n : ℕ) (f : ℕ → ℕ → ℕ → ℝ) : ℝ :=
  Real.sqrt (fieldMean n (fun i j k => (f i j k - fieldMean n f) ^ 2))

/-- np.max over the grid: fold of max over all cells, seeded with cell 0. -/
def fieldMax (n : ℕ) (f : ℕ → ℕ → ℕ → ℝ) : ℝ :=
  ((List.range (n * n * n)).map (fun m => f (m / (n * n)) ((m / n) % n) (m % n))).foldl
    max (f 0 0 0)

/-- np.min over the grid: fold of min over all cells, seeded with cell 0. -/
def fieldMin (n : ℕ) (f : ℕ → ℕ → ℕ → ℝ) : ℝ :=
  ((List.range (n * n * n)).map (fun m => f (m / (n * n)) ((m / n) % n) (m % n))).foldl
    min (f 0 0 0)

/-- np.mean(np.abs(field - 1)): the mean absolute density contrast used by
step and get_perturbation_growth_rate. -/
noncomputable def delta_mean_abs (n : ℕ) (f : ℕ → ℕ → ℕ → ℝ) : ℝ :=
  fieldMean n (fun i j k => |f i j k - 1|)

/-- Boundary handling of scipy.ndimage in its default mode, which reflects
the index sequence about the array edges with period 2n. -/
def reflIdx (n : ℕ) (z : ℤ) : ℕ :=
  if n = 0 then 0
  else
    let m := z % (2 * (n : ℤ))
    (if m < (n : ℤ) then m else 2 * (n : ℤ) - 1 - m).toNat

/-- scipy.ndimage.laplace: the sum over the three axes of the discrete
second difference with stencil (1, -2, 1) and reflected boundaries. -/
def laplace (n : ℕ) (g : ℕ → ℕ → ℕ → ℝ) : ℕ → ℕ → ℕ → ℝ :=
  fun i j k =>
    (g (reflIdx n ((i : ℤ) - 1)) j k + g (reflIdx n ((i : ℤ) + 1)) j k - 2 * g i j k)
    + (g i (reflIdx n ((j : ℤ) - 1)) k + g i (reflIdx n ((j : ℤ) + 1)) k - 2 * g i j k)
    + (g i j (reflIdx n ((k : ℤ) - 1)) + g i j (reflIdx n ((k : ℤ) + 1)) - 2 * g i j k)

/-- Unnormalised Gaussian kernel sample exp(-t^2 / (2 sigma^2)) at sigma = 0.5,
as used by scipy.ndimage.gaussian_filter. -/
noncomputable def gaussK (t : ℤ) : ℝ :=
  Real.exp (-((t : ℝ) ^ 2) / (2 * 0.5 ^ 2))

/-- Normalising constant of the 5-tap kernel (radius int(4.0 * 0.5 + 0.5) = 2). -/
noncomputable def gaussZ : ℝ :=
  gaussK (-2) + gaussK (-1) + gaussK 0 + gaussK 1 + gaussK 2

/-- One-dimensional Gaussian correlation pass with the normalised 5-tap
kernel and reflected boundaries. -/
noncomputable def gauss1 (n : ℕ) (g : ℕ → ℝ) (i : ℕ) : ℝ :=
  (gaussK (-2) * g (reflIdx n ((i : ℤ) - 2))
   + gaussK (-1) * g (reflIdx n ((i : ℤ) - 1))
   + gaussK 0 * g i
   + gaussK 1 * g (reflIdx n ((i : ℤ) + 1))
   + gaussK 2 * g (reflIdx n ((i : ℤ) + 2))) / gaussZ

/-- scipy.ndimage.gaussian_filter with sigma = 0.5: the separable filter,
one pass per axis. -/
noncomputable def gaussian_filter3 (n : ℕ) (g : ℕ → ℕ → ℕ → ℝ) : ℕ → ℕ → ℕ → ℝ :=
  let g1 := fun i j k => gauss1 n (fun i' => g i' j k) i
  let g2 := fun i j k => gauss1 n (fun j' => g1 i j' k) j
  fun i j k => gauss1 n (fun k' => g2 i j k') k

/-- np.clip of a scalar to the interval lo..hi. -/
def clipTo (x lo hi : ℝ) : ℝ :=
  max lo (min x hi)

/-- Snapshot dataclass UniverseState of universe.py.  The optional numpy
array density_field is an optional grid function. -/
structure UniverseState where
  time : ℝ
  scale_factor : ℝ
  temperature : ℝ
  hubble : ℝ
  epoch : String
  rho_matter : ℝ
  rho_radiation : ℝ
  rho_dark_energy : ℝ
  H_fraction : Option ℝ
  He_fraction : Option ℝ
  density_rms : Option ℝ
  density_max : Option ℝ
  density_min : Option ℝ
  density_field : Option (ℕ → ℕ → ℕ → ℝ)

/-- Mutable state of the Universe controller: current time, current scale
factor, grid size, the owned density field, and the history list (appended
at the tail, so that Python history[-1] is List.getLast?). -/
structure Universe where
  current_time : ℝ
  current_scale_factor : ℝ
  grid_size : ℕ
  density_field : ℕ → ℕ → ℕ → ℝ
  history : List UniverseState

/-- The FriedmannSolver built by Universe.__init__, always from the default
CosmologicalParameters (the configuration record carries no cosmology). -/
noncomputable def defaultSolver : FriedmannSolver ℝ :=
  mkFriedmannSolver defaultCosmo

/-- Universe.initialize_density_field: the uniform baseline 1 plus five
octaves of Gaussian noise.  Octave o (o = 0..4) has block scale 2^o and
amplitude 1e-5 * 0.7^o; np.repeat upsampling reads the reduced-resolution
draw at the block index i / 2^o.  The random standard-normal draws are the
explicit argument z (octave number first), so one embedding covers every
possible seeding. -/
noncomputable def seeded_density_field (z : Fin 5 → ℕ → ℕ → ℕ → ℝ) :
    ℕ → ℕ → ℕ → ℝ :=
  fun i j k =>
    1 + ∑ o : Fin 5,
      (1e-5 * (0.7 : ℝ) ^ (o : ℕ)) * z o (i / 2 ^ (o : ℕ)) (j / 2 ^ (o : ℕ)) (k / 2 ^ (o : ℕ))

/-- The matter fraction rho_m / (rho_m + rho_r + 1e-100) at scale factor a,
written inline twice in the source (get_perturbation_growth_rate and
apply_gravitational_collapse) with this exact formula. -/
noncomputable def matter_fraction (a : ℝ) : ℝ :=
  let rho_m := density_matter defaultSolver a
  let rho_r := density_radiation defaultSolver a
  rho_m / (rho_m + rho_r + 1e-100)

/-- Universe.get_perturbation_growth_rate: base rate H in the
matter-dominated regime, 0.1 H otherwise, multiplied by the non-linear or
Zeldovich boost depending on the mean absolute contrast. -/
noncomputable def get_perturbation_growth_rate (u : Universe) : ℝ :=
  let f_matter := matter_fraction u.current_scale_factor
  let H := hubble_parameter defaultSolver u.current_scale_factor
  let base_growth := if f_matter > 0.5 then H else 0.1 * H
  let dm := delta_mean_abs u.grid_size u.density_field
  if dm > 1.0 then base_growth * (2.0 + dm)
  else if dm > 0.1 then base_growth * (1.0 + 2.0 * dm)
  else base_growth

/-- The density field produced by Universe.apply_gravitational_collapse:
unchanged when the matter fraction is below 0.5 (the early return);
otherwise the clipped Laplacian flow is added, the Gaussian-smoothed blend
replaces it when the old maximum absolute contrast exceeds 1, and the
positivity floor 0.01 is imposed on every cell at the end. -/
noncomputable def collapse_field (u : Universe) (dt : ℝ) : ℕ → ℕ → ℕ → ℝ :=
  let n := u.grid_size
  let delta := fun i j k => u.density_field i j k - 1
  let f_matter := matter_fraction u.current_scale_factor
  if f_matter < 0.5 then u.density_field
  else
    let gravitational_force := laplace n delta
    let collapse_strength := 0.1 * (f_matter - 0.5) * dt * 1e-16
    let density_change := fun i j k =>
      clipTo (collapse_strength * gravitational_force i j k) (-0.01) 0.01
    let field1 := fun i j k => u.density_field i j k + density_change i j k
    let delta_max := fieldMax n (fun i j k => |delta i j k|)
    let field2 :=
      if delta_max > 1.0 then
        let delta_smoothed := gaussian_filter3 n delta
        let blend_factor := min ((delta_max - 1.0) / 2.0) 0.3
        fun i j k =>
          1.0 + ((1 - blend_factor) * delta i j k + blend_factor * delta_smoothed i j k)
      else field1
    fun i j k => max (field2 i j k) 0.01

/-- Universe.apply_gravitational_collapse: only the density field changes. -/
noncomputable def apply_gravitational_collapse (u : Universe) (dt : ℝ) : Universe :=
  ⟨u.current_time, u.current_scale_factor, u.grid_size, collapse_field u dt, u.history⟩

/-- Universe.step: advance scale factor by a += H(a) a dt and time by dt,
then evolve the contrast by the growth rate computed at the NEW scale
factor and the OLD field, then apply gravitational collapse when the mean
absolute contrast of the evolved field exceeds 0.1. -/
noncomputable def step (u : Universe) (dt : ℝ) : Universe :=
  let H := hubble_parameter defaultSolver u.current_scale_factor
  let u1 : Universe :=
    ⟨u.current_time + dt, u.current_scale_factor + H * u.current_scale_factor * dt,
     u.grid_size, u.density_field, u.history⟩
  let growth_rate := get_perturbation_growth_rate u1
  let u2 : Universe :=
    ⟨u1.current_time, u1.current_scale_factor, u1.grid_size,
     fun i j k => 1 + (u1.density_field i j k - 1) * (1 + growth_rate * dt),
     u1.history⟩
  if delta_mean_abs u2.grid_size u2.density_field > 0.1 then
    apply_gravitational_collapse u2 dt
  else u2

/-- Universe.step folded over a list of timesteps. -/
noncomputable def stepSeq (u : Universe) (dts : List ℝ) : Universe :=
  dts.foldl step u

/-- Universe.get_current_state: the snapshot at the current time.  The
abundance fields are filled only inside the nucleosynthesis window
10 < t < 1200; the full density field is included only when requested.
The temperature is T_today / a as computed by get_thermodynamic_state
(whose ValueError for a non-positive scale factor is outside every claim,
all of which keep the scale factor positive). -/
noncomputable def get_current_state (u : Universe) (include_density_field : Bool) :
    UniverseState :=
  let T := temperature_from_scale_factor_val u.current_scale_factor (2.725 : ℝ)
  let abundances :=
    if 10 < u.current_time ∧ u.current_time < 1200 then
      some (calculate_abundances defaultNuc 0.7 0.1 (u.current_time - 1))
    else none
  let delta := fun i j k => u.density_field i j k - 1
  ⟨u.current_time, u.current_scale_factor, T,
   hubble_parameter defaultSolver u.current_scale_factor,
   (identify_epoch defaultThermo T).1,
   density_matter defaultSolver u.current_scale_factor,
   density_radiation defaultSolver u.current_scale_factor,
   density_dark_energy defaultSolver u.current_scale_factor,
   abundances.map (fun r => r.H), abundances.map (fun r => r.He4),
   some (fieldStd u.grid_size delta),
   some (fieldMax u.grid_size delta),
   some (fieldMin u.grid_size delta),
   if include_density_field then some u.density_field else none⟩

/-- The periodic history recording inside the run_to_time loop: append a
statistics-only snapshot when the history is empty or the current time has
grown by more than 10 percent past the last recorded snapshot. -/
noncomputable def record_state (u : Universe) : Universe :=
  match u.history.getLast? with
  | none =>
      ⟨u.current_time, u.current_scale_factor, u.grid_size, u.density_field,
       u.history ++ [get_current_state u false]⟩
  | some last =>
      if u.current_time / last.time > 1.1 then
        ⟨u.current_time, u.current_scale_factor, u.grid_size, u.density_field,
         u.history ++ [get_current_state u false]⟩
      else u

/-- One iteration of the run_to_time loop: timestep
max(0.01 t, 1e-6 t) capped at target - t, one step, then the periodic
history recording.  (The optional per-step callback only observes state
and is not modelled.) -/
noncomputable def loop_body (target_time : ℝ) (u : Universe) : Universe :=
  let dt := max (u.current_time * 0.01) (u.current_time * 1e-6)
  let dt := min dt (target_time - u.current_time)
  record_state (step u dt)

/-- Universe.run_to_time as a fuel-bounded loop: while current_time <
target_time run loop_body.  Returns some of the final controller state
when the loop exits within the given fuel (the Python loop is unbounded;
every claim about run_to_time is conditional on normal termination), and
none when the fuel runs out first.  The snapshot value returned by the
Python method at loop exit is run_to_time_return of the final state. -/
noncomputable def run_to_time : ℕ → ℝ → Universe → Option Universe
  | 0, target_time, u =>
      if u.current_time < target_time then none else some u
  | fuel + 1, target_time, u =>
      if u.current_time < target_time then
        run_to_time fuel target_time (loop_body target_time u)
      else some u

/-- The value returned by Universe.run_to_time at loop exit: the current
snapshot with the full density field included. -/
noncomputable def run_to_time_return (u : Universe) : UniverseState :=
  get_current_state u true

/-- A concrete controller state: grid size 16 (a valid configuration, for
which every noise octave scale divides the edge), all noise draws zero
(so the field is uniformly 1), start time 5 s, scale factor 1. -/
noncomputable def sampleUniverse : Universe :=
  ⟨5, 1, 16, seeded_density_field (fun _ _ _ _ => 0), []⟩

/-- Noise draws that put every cell of a 16-grid at exactly 0.01: the
octave-0 draw is the constant -99000 (1 + 1e-5 * (-99000) = 0.01) and the
other octaves are zero. -/
noncomputable def floorNoise : Fin 5 → ℕ → ℕ → ℕ → ℝ :=
  fun o _ _ _ => if o = 0 then -99000 else 0

/-- A freshly seeded controller state in the radiation-dominated era
(a = 1e-5), every cell of whose field sits exactly at the 0.01 floor. -/
noncomputable def floorUniverse : Universe :=
  ⟨1, 1e-5, 16, seeded_density_field floorNoise, []⟩

/-- The rational instantiation of the solver built from the default
parameters, used for claims that evaluate the pure density formulas. -/
def defaultSolverQ : FriedmannSolver ℚ :=
  mkFriedmannSolver defaultCosmo

/-! ### Theorems -/

/-- Claim C5: construction of CosmologicalParameters fails (raises) exactly
when the four density fractions differ from 1 by more than the fixed
tolerance 1e-3; on success the stored fractions are exactly the inputs
(never silently corrected); and the scenario Omega_m0 = 0.315,
Omega_r0 = 9.2e-5, Omega_lambda0 = 0.685, Omega_k0 = 0 (sum 1.000092)
succeeds. -/
theorem claim_C5_params_validation :
    (∀ Om Orad Ol Ok : ℚ,
      (∃ e, mkCosmologicalParameters Om Orad Ol Ok = Except.error e) ↔
        |Om + Orad + Ol + Ok - 1| > 1e-3) ∧
    (∀ (Om Orad Ol Ok : ℚ) (p : CosmologicalParameters ℚ),
      mkCosmologicalParameters Om Orad Ol Ok = Except.ok p →
        p.Omega_m0 = Om ∧ p.Omega_r0 = Orad ∧ p.Omega_lambda0 = Ol ∧ p.Omega_k0 = Ok) ∧
    (∃ p : CosmologicalParameters ℚ,
      mkCosmologicalParameters (0.315 : ℚ) 9.2e-5 0.685 0 = Except.ok p) := by
  have hsum : |(0.315 : ℚ) + 9.2e-5 + 0.685 + 0 - 1| ≤ 1e-3 := by
    have h1 : (0.315 : ℚ) + 9.2e-5 + 0.685 + 0 - 1 = 9.2e-5 := by norm_num
    rw [h1, abs_of_nonneg (by norm_num)]
    norm_num
  refine ⟨?_, ?_, ?_⟩
  · intro Om Orad Ol Ok
    unfold mkCosmologicalParameters
    split_ifs with h
    · exact iff_of_true ⟨_, rfl⟩ h
    · exact iff_of_false (by rintro ⟨e, he⟩; simp at he) h
  · intro Om Orad Ol Ok p hp
    unfold mkCosmologicalParameters at hp
    split_ifs at hp with h
    injection hp with h2
    subst h2
    exact ⟨rfl, rfl, rfl, rfl⟩
  · refine ⟨⟨6.67430e-11, 299792458.0, 2.184e-18, 0.315, 9.2e-5, 0.685, 0, 8.5e-27⟩, ?_⟩
    unfold mkCosmologicalParameters
    rw [if_neg (not_lt.mpr hsum)]

/-- Witness for claim C5: the validation theorem applied at the concrete
scenario inputs, whose sum is 1.000092. -/
theorem claim_C5_witness :
    (mkCosmologicalParameters (0.315 : ℚ) 9.2e-5 0.685 0 =
      Except.ok (⟨6.67430e-11, 299792458.0, 2.184e-18, 0.315, 9.2e-5, 0.685, 0, 8.5e-27⟩ :
        CosmologicalParameters ℚ)) ∧
    ((0.315 : ℚ) = 0.315 ∧ (9.2e-5 : ℚ) = 9.2e-5 ∧ (0.685 : ℚ) = 0.685 ∧ (0 : ℚ) = 0) := by
  have hsum : |(0.315 : ℚ) + 9.2e-5 + 0.685 + 0 - 1| ≤ 1e-3 := by
    have h1 : (0.315 : ℚ) + 9.2e-5 + 0.685 + 0 - 1 = 9.2e-5 := by norm_num
    rw [h1, abs_of_nonneg (by norm_num)]
    norm_num
  have h : mkCosmologicalParameters (0.315 : ℚ) 9.2e-5 0.685 0 =
      Except.ok (⟨6.67430e-11, 299792458.0, 2.184e-18, 0.315, 9.2e-5, 0.685, 0, 8.5e-27⟩ :
        CosmologicalParameters ℚ) := by
    unfold mkCosmologicalParameters
    rw [if_neg (not_lt.mpr hsum)]
  exact ⟨h, claim_C5_params_validation.2.1 0.315 9.2e-5 0.685 0 _ h⟩

/-- Claim C8: temperature_from_scale_factor returns T_today / a for every
positive scale factor and signals a range error exactly when a <= 0; at
a = 1 with T_today = 2.725 it returns 2.725. -/
theorem claim_C8_temperature_range_error :
    (∀ a T0 : ℚ,
      (∃ e, temperature_from_scale_factor a T0 = Except.error e) ↔ a ≤ 0) ∧
    (∀ a T0 : ℚ, 0 < a →
      temperature_from_scale_factor a T0 = Except.ok (T0 / a)) ∧
    temperature_from_scale_factor (1 : ℚ) 2.725 = Except.ok 2.725 := by
  refine ⟨?_, ?_, ?_⟩
  · intro a T0
    unfold temperature_from_scale_factor
    split_ifs with h
    · exact iff_of_true ⟨_, rfl⟩ h
    · exact iff_of_false (by rintro ⟨e, he⟩; simp at he) h
  · intro a T0 ha
    unfold temperature_from_scale_factor
    rw [if_neg (not_le.mpr ha)]
  · unfold temperature_from_scale_factor
    norm_num

/-- Witness for claim C8: the theorem applied at a = 1, T_today = 2.725. -/
theorem claim_C8_witness :
    (0 : ℚ) < 1 ∧ temperature_from_scale_factor (1 : ℚ) 2.725 = Except.ok (2.725 / 1) :=
  ⟨by norm_num, claim_C8_temperature_range_error.2.1 1 2.725 (by norm_num)⟩

/-- Claim C7: with the default parameters, density_matter a = rho_m0 / a^3,
density_radiation a = rho_r0 / a^4 and density_dark_energy is the constant
rho_lambda0; hence density_matter a * a^3 and density_radiation a * a^4
are constant in a (exactly, so in particular within 1e-9 relative error),
and the ratios at a1 = 0.1, a2 = 1.0 are exactly 1000 and 10000 (so within
1 percent). -/
theorem claim_C7_density_power_laws :
    (∀ a : ℚ, 0 < a →
      density_matter defaultSolverQ a = defaultSolverQ.rho_m0 / a ^ 3 ∧
      density_radiation defaultSolverQ a = defaultSolverQ.rho_r0 / a ^ 4 ∧
      density_dark_energy defaultSolverQ a = defaultSolverQ.rho_lambda0) ∧
    (∀ a1 a2 : ℚ, 0 < a1 → 0 < a2 →
      density_matter defaultSolverQ a1 * a1 ^ 3 = density_matter defaultSolverQ a2 * a2 ^ 3 ∧
      |density_matter defaultSolverQ a1 * a1 ^ 3 - density_matter defaultSolverQ a2 * a2 ^ 3|
        ≤ 1e-9 * |density_matter defaultSolverQ a2 * a2 ^ 3| ∧
      density_radiation defaultSolverQ a1 * a1 ^ 4
        = density_radiation defaultSolverQ a2 * a2 ^ 4 ∧
      |density_radiation defaultSolverQ a1 * a1 ^ 4 - density_radiation defaultSolverQ a2 * a2 ^ 4|
        ≤ 1e-9 * |density_radiation defaultSolverQ a2 * a2 ^ 4|) ∧
    (density_matter defaultSolverQ 0.1 / density_matter defaultSolverQ 1 = 1000 ∧
     |density_matter defaultSolverQ 0.1 / density_matter defaultSolverQ 1 - 1000|
       ≤ 0.01 * 1000 ∧
     density_radiation defaultSolverQ 0.1 / density_radiation defaultSolverQ 1 = 10000 ∧
     |density_radiation defaultSolverQ 0.1 / density_radiation defaultSolverQ 1 - 10000|
       ≤ 0.01 * 10000) := by
  have hm : ∀ a : ℚ, 0 < a →
      density_matter defaultSolverQ a * a ^ 3 = defaultSolverQ.rho_m0 := by
    intro a ha
    unfold density_matter
    exact div_mul_cancel₀ _ (pow_ne_zero 3 ha.ne')
  have hr : ∀ a : ℚ, 0 < a →
      density_radiation defaultSolverQ a * a ^ 4 = defaultSolverQ.rho_r0 := by
    intro a ha
    unfold density_radiation
    exact div_mul_cancel₀ _ (pow_ne_zero 4 ha.ne')
  refine ⟨fun a _ => ⟨rfl, rfl, rfl⟩, ?_, ?_⟩
  · intro a1 a2 h1 h2
    have em := (hm a1 h1).trans (hm a2 h2).symm
    have er := (hr a1 h1).trans (hr a2 h2).symm
    refine ⟨em, ?_, er, ?_⟩
    · rw [em, sub_self, abs_zero]
      positivity
    · rw [er, sub_self, abs_zero]
      positivity
  · norm_num [density_matter, density_radiation, defaultSolverQ, mkFriedmannSolver,
      defaultCosmo]

/-- Witness for claim C7: the theorem applied at a = 2 and (a1, a2) = (0.1, 1). -/
theorem claim_C7_witness :
    (0 : ℚ) < 2 ∧ (0 : ℚ) < 0.1 ∧ (0 : ℚ) < 1 ∧
    density_dark_energy defaultSolverQ 2 = defaultSolverQ.rho_lambda0 ∧
    density_matter defaultSolverQ 0.1 * (0.1 : ℚ) ^ 3
      = density_matter defaultSolverQ 1 * (1 : ℚ) ^ 3 :=
  ⟨by norm_num, by norm_num, by norm_num,
   (claim_C7_density_power_laws.1 2 (by norm_num)).2.2,
   (claim_C7_density_power_laws.2.1 0.1 1 (by norm_num) (by norm_num)).1⟩

/-- Claim C6: for every parameter record and every a > 0, hubble_parameter
equals sqrt(max(0, 8 pi G / 3 * total_density(a) - Omega_k0 H0^2 / a^2)) --
the curvature term is only subtracted in the source when Omega_k0 is
nonzero, which agrees with the formula since the term vanishes otherwise --
and the result is a non-negative real number (the clamp guarantees the
square-root argument is non-negative, so no NaN can arise). -/
theorem claim_C6_hubble_clamped :
    ∀ (p : CosmologicalParameters ℝ) (a : ℝ), 0 < a →
      hubble_parameter (mkFriedmannSolver p) a =
        Real.sqrt (max 0 ((8 * Real.pi * p.G / 3) * total_density (mkFriedmannSolver p) a
          - p.Omega_k0 * p.H0 ^ 2 / a ^ 2)) ∧
      0 ≤ hubble_parameter (mkFriedmannSolver p) a := by
  intro p a _
  constructor
  · show Real.sqrt _ = _
    by_cases hk : p.Omega_k0 = 0
    · simp only [hubble_parameter, mkFriedmannSolver, hk, ne_eq, not_true_eq_false,
        if_false, zero_mul, zero_div, sub_zero, max_comm]
    · simp only [hubble_parameter, mkFriedmannSolver, ne_eq, hk, not_false_eq_true,
        if_true, max_comm]
  · exact Real.sqrt_nonneg _

/-- Witness for claim C6: the theorem applied to the default parameters at
a = 1. -/
theorem claim_C6_witness :
    (0 : ℝ) < 1 ∧
    0 ≤ hubble_parameter (mkFriedmannSolver defaultCosmo) 1 :=
  ⟨by norm_num, (claim_C6_hubble_clamped defaultCosmo 1 (by norm_num)).2⟩

/-- Claim C2, amended: calculate_abundances never signals an error on any
real inputs -- the source contains no raise statement on this path and
neutron_proton_ratio silently returns 0 for a non-positive temperature --
so for a non-positive freeze-out temperature it returns the degenerate
bundle n/p = 0, X_n = 0, X_p = 1, He4 = 0, H = 1 instead of failing, and
for a positive freeze-out temperature it returns the Boltzmann ratio
exp(-delta_m / T). -/
theorem claim_C2_abundances_never_fail :
    ∀ (c : NucleosynthesisConstants) (Tf Tn t : ℝ),
      (Tf ≤ 0 →
        (calculate_abundances c Tf Tn t).n_p_freeze = 0 ∧
        (calculate_abundances c Tf Tn t).X_n_final = 0 ∧
        (calculate_abundances c Tf Tn t).X_p_final = 1 ∧
        (calculate_abundances c Tf Tn t).He4 = 0 ∧
        (calculate_abundances c Tf Tn t).H = 1) ∧
      (0 < Tf →
        (calculate_abundances c Tf Tn t).n_p_freeze = Real.exp (-c.delta_m / Tf)) := by
  intro c Tf Tn t
  constructor
  · intro h
    simp only [calculate_abundances, freeze_out_ratio, neutron_proton_ratio,
      neutron_fraction_with_decay, helium4_mass_fraction, hydrogen_mass_fraction,
      if_pos h]
    norm_num
  · intro h
    simp only [calculate_abundances, freeze_out_ratio, neutron_proton_ratio,
      if_neg (not_le.mpr h)]

/-- Counterexample for claim C2 as stated: at the non-positive freeze-out
temperature -1 MeV the call does not fail; it returns the ordinary
abundance bundle with H = 1, He4 = 0 and n/p = 0. -/
theorem claim_C2_counterexample :
    (calculate_abundances defaultNuc (-1) 0.1 300).H = 1 ∧
    (calculate_abundances defaultNuc (-1) 0.1 300).He4 = 0 ∧
    (calculate_abundances defaultNuc (-1) 0.1 300).n_p_freeze = 0 := by
  have h : (-1 : ℝ) ≤ 0 := by norm_num
  simp only [calculate_abundances, freeze_out_ratio, neutron_proton_ratio,
    neutron_fraction_with_decay, helium4_mass_fraction, hydrogen_mass_fraction,
    if_pos h]
  norm_num

/-- Witness for the amended claim C2: the theorem applied at the concrete
inputs (-1, 0.1, 300). -/
theorem claim_C2_witness :
    (-1 : ℝ) ≤ 0 ∧
    ((calculate_abundances defaultNuc (-1) 0.1 300).n_p_freeze = 0 ∧
     (calculate_abundances defaultNuc (-1) 0.1 300).X_n_final = 0 ∧
     (calculate_abundances defaultNuc (-1) 0.1 300).X_p_final = 1 ∧
     (calculate_abundances defaultNuc (-1) 0.1 300).He4 = 0 ∧
     (calculate_abundances defaultNuc (-1) 0.1 300).H = 1) :=
  ⟨by norm_num,
   (claim_C2_abundances_never_fail defaultNuc (-1) 0.1 300).1 (by norm_num)⟩

/-- Every energy value lies in at least one of the nine epoch bands. -/
theorem bandPred_exists (E : ℚ) : ∃ i : Fin 9, bandPred i E := by
  by_cases h0 : 1e27 < E
  · exact ⟨0, h0⟩
  by_cases h1 : 1e23 < E
  · exact ⟨1, h1, not_lt.mp h0⟩
  by_cases h2 : 80e9 < E
  · exact ⟨2, h2, not_lt.mp h1⟩
  by_cases h3 : 150e6 < E
  · exact ⟨3, h3, not_lt.mp h2⟩
  by_cases h4 : 1e6 < E
  · exact ⟨4, h4, not_lt.mp h3⟩
  by_cases h5 : 0.1e6 < E
  · exact ⟨5, h5, not_lt.mp h4⟩
  by_cases h6 : 1 < E
  · exact ⟨6, h6, not_lt.mp h5⟩
  by_cases h7 : 0.25 < E
  · exact ⟨7, h7, not_lt.mp h6⟩
  · exact ⟨8, not_lt.mp h7⟩

/-- The nine epoch bands are pairwise disjoint. -/
theorem bandPred_unique (E : ℚ) (i j : Fin 9) (hi : bandPred i E) (hj : bandPred j E) :
    i = j := by
  fin_cases i <;> fin_cases j <;> simp_all [bandPred] <;> linarith

/-- If the energy equivalent of T lies in band i then identify_epoch
returns the i-th taxonomy entry. -/
theorem identify_epoch_band (T : ℚ) (i : Fin 9)
    (h : bandPred i (temperature_to_energy_eV defaultThermo T)) :
    identify_epoch defaultThermo T = epochTable i := by
  simp only [identify_epoch, gt_iff_lt]
  set E := temperature_to_energy_eV defaultThermo T with hE
  fin_cases i
  · have ha : (1e27 : ℚ) < E := h
    rw [if_pos ha]
    rfl
  · have ha : (1e23 : ℚ) < E := h.1
    have hb : E ≤ 1e27 := h.2
    rw [if_neg (not_lt.mpr hb), if_pos ha]
    rfl
  · have ha : (80e9 : ℚ) < E := h.1
    have hb : E ≤ 1e23 := h.2
    rw [if_neg (not_lt.mpr (hb.trans (by norm_num))), if_neg (not_lt.mpr hb), if_pos ha]
    rfl
  · have ha : (150e6 : ℚ) < E := h.1
    have hb : E ≤ 80e9 := h.2
    rw [if_neg (not_lt.mpr (hb.trans (by norm_num))),
      if_neg (not_lt.mpr (hb.trans (by norm_num))), if_neg (not_lt.mpr hb), if_pos ha]
    rfl
  · have ha : (1e6 : ℚ) < E := h.1
    have hb : E ≤ 150e6 := h.2
    rw [if_neg (not_lt.mpr (hb.trans (by norm_num))),
      if_neg (not_lt.mpr (hb.trans (by norm_num))),
      if_neg (not_lt.mpr (hb.trans (by norm_num))), if_neg (not_lt.mpr hb), if_pos ha]
    rfl
  · have ha : (0.1e6 : ℚ) < E := h.1
    have hb : E ≤ 1e6 := h.2
    rw [if_neg (not_lt.mpr (hb.trans (by norm_num))),
      if_neg (not_lt.mpr (hb.trans (by norm_num))),
      if_neg (not_lt.mpr (hb.trans (by norm_num))),
      if_neg (not_lt.mpr (hb.trans (by norm_num))), if_neg (not_lt.mpr hb), if_pos ha]
    rfl
  · have ha : (1 : ℚ) < E := h.1
    have hb : E ≤ 0.1e6 := h.2
    rw [if_neg (not_lt.mpr (hb.trans (by norm_num))),
      if_neg (not_lt.mpr (hb.trans (by norm_num))),
      if_neg (not_lt.mpr (hb.trans (by norm_num))),
      if_neg (not_lt.mpr (hb.trans (by norm_num))),
      if_neg (not_lt.mpr (hb.trans (by norm_num))), if_neg (not_lt.mpr hb), if_pos ha]
    rfl
  · have ha : (0.25 : ℚ) < E := h.1
    have hb : E ≤ 1 := h.2
    rw [if_neg (not_lt.mpr (hb.trans (by norm_num))),
      if_neg (not_lt.mpr (hb.trans (by norm_num))),
      if_neg (not_lt.mpr (hb.trans (by norm_num))),
      if_neg (not_lt.mpr (hb.trans (by norm_num))),
      if_neg (not_lt.mpr (hb.trans (by norm_num))),
      if_neg (not_lt.mpr (hb.trans (by norm_num))), if_neg (not_lt.mpr hb), if_pos ha]
    rfl
  · have hb : E ≤ 0.25 := h
    rw [if_neg (not_lt.mpr (hb.trans (by norm_num))),
      if_neg (not_lt.mpr (hb.trans (by norm_num))),
      if_neg (not_lt.mpr (hb.trans (by norm_num))),
      if_neg (not_lt.mpr (hb.trans (by norm_num))),
      if_neg (not_lt.mpr (hb.trans (by norm_num))),
      if_neg (not_lt.mpr (hb.trans (by norm_num))),
      if_neg (not_lt.mpr (hb.trans (by norm_num))), if_neg (not_lt.mpr hb)]
    rfl


/-- The name returned for band i sits at position i of the taxonomy. -/
theorem epochIndexOfName_table : ∀ i : Fin 9, epochIndexOfName (epochTable i).1 = i := by
  decide

/-- Larger energies land in bands with smaller (or equal) index. -/
theorem bandPred_mono (E1 E2 : ℚ) (i1 i2 : Fin 9) (hE : E2 ≤ E1)
    (h1 : bandPred i1 E1) (h2 : bandPred i2 E2) : (i1 : ℕ) ≤ (i2 : ℕ) := by
  fin_cases i1 <;> fin_cases i2 <;> simp_all [bandPred] <;> linarith

/-- Claim C4: identify_epoch classifies every temperature T > 0 into
exactly one band of the fixed descending sequence (the bands tile the
energy axis: existence and uniqueness), the returned entry is the matching
band of the taxonomy (first matching threshold wins), the epoch index is
non-decreasing along any strictly descending sequence of temperatures, and
at T = 1e15 K the epoch is Electroweak. -/
theorem claim_C4_epoch_classification :
    (∀ T : ℚ, 0 < T →
      ∃! i : Fin 9, bandPred i (temperature_to_energy_eV defaultThermo T)) ∧
    (∀ (T : ℚ) (i : Fin 9), bandPred i (temperature_to_energy_eV defaultThermo T) →
      identify_epoch defaultThermo T = epochTable i) ∧
    (∀ T1 T2 : ℚ, 0 < T2 → T2 < T1 →
      epochIndexOfName (identify_epoch defaultThermo T1).1
        ≤ epochIndexOfName (identify_epoch defaultThermo T2).1) ∧
    (identify_epoch defaultThermo (1e15 : ℚ)).1 = "Electroweak" := by
  have hEW : bandPred 2 (temperature_to_energy_eV defaultThermo (1e15 : ℚ)) := by
    constructor
    · show (80e9 : ℚ) < 1e15 / defaultThermo.eV_to_K
      norm_num [defaultThermo]
    · show (1e15 : ℚ) / defaultThermo.eV_to_K ≤ 1e23
      norm_num [defaultThermo]
  refine ⟨?_, fun T i h => identify_epoch_band T i h, ?_, ?_⟩
  · intro T _
    obtain ⟨i, hi⟩ := bandPred_exists (temperature_to_energy_eV defaultThermo T)
    exact ⟨i, hi, fun j hj => bandPred_unique _ j i hj hi⟩
  · intro T1 T2 _ hT
    obtain ⟨i1, h1⟩ := bandPred_exists (temperature_to_energy_eV defaultThermo T1)
    obtain ⟨i2, h2⟩ := bandPred_exists (temperature_to_energy_eV defaultThermo T2)
    rw [identify_epoch_band T1 i1 h1, identify_epoch_band T2 i2 h2,
      epochIndexOfName_table i1, epochIndexOfName_table i2]
    refine bandPred_mono _ _ i1 i2 ?_ h1 h2
    have hc : (0 : ℚ) < defaultThermo.eV_to_K := by norm_num [defaultThermo]
    exact (div_le_div_iff_of_pos_right hc).mpr hT.le
  · rw [identify_epoch_band (1e15 : ℚ) 2 hEW]
    rfl

/-- Witness for claim C4: the theorem applied at T = 1e15 (positivity and
the unique band) and at the descending pair T1 = 2, T2 = 1. -/
theorem claim_C4_witness :
    ((0 : ℚ) < 1e15 ∧
      ∃! i : Fin 9, bandPred i (temperature_to_energy_eV defaultThermo (1e15 : ℚ))) ∧
    ((0 : ℚ) < 1 ∧ (1 : ℚ) < 2 ∧
      epochIndexOfName (identify_epoch defaultThermo (2 : ℚ)).1
        ≤ epochIndexOfName (identify_epoch defaultThermo (1 : ℚ)).1) :=
  ⟨⟨by norm_num, claim_C4_epoch_classification.1 1e15 (by norm_num)⟩,
   ⟨by norm_num, by norm_num,
    claim_C4_epoch_classification.2.2.1 2 1 (by norm_num) (by norm_num)⟩⟩

/-- step only rewrites the density field beyond the two scalar updates:
its current_time is exactly the old time plus dt. -/
theorem step_current_time (u : Universe) (dt : ℝ) :
    (step u dt).current_time = u.current_time + dt := by
  simp only [step]
  split <;> rfl

/-- The scale-factor update of step: a + H(a) a dt. -/
theorem step_current_scale_factor (u : Universe) (dt : ℝ) :
    (step u dt).current_scale_factor =
      u.current_scale_factor
        + hubble_parameter defaultSolver u.current_scale_factor
          * u.current_scale_factor * dt := by
  simp only [step]
  split <;> rfl

/-- step does not touch the grid size. -/
theorem step_grid_size (u : Universe) (dt : ℝ) :
    (step u dt).grid_size = u.grid_size := by
  simp only [step]
  split <;> rfl

/-- step never appends to the history (only run_to_time records). -/
theorem step_history (u : Universe) (dt : ℝ) :
    (step u dt).history = u.history := by
  simp only [step]
  split <;> rfl

/-- record_state preserves the current time. -/
theorem record_state_current_time (u : Universe) :
    (record_state u).current_time = u.current_time := by
  unfold record_state
  rcases u.history.getLast? with _ | last
  · rfl
  · dsimp only
    split <;> rfl

/-- The time reached by one loop iteration of run_to_time. -/
theorem loop_body_current_time (t : ℝ) (u : Universe) :
    (loop_body t u).current_time =
      u.current_time
        + min (max (u.current_time * 0.01) (u.current_time * 1e-6))
            (t - u.current_time) := by
  unfold loop_body
  rw [record_state_current_time, step_current_time]

/-- run_to_time returns immediately, with the state untouched, as soon as
the current time is at least the target. -/
theorem run_to_time_of_ge (fuel : ℕ) (t : ℝ) (u : Universe)
    (h : t ≤ u.current_time) : run_to_time fuel t u = some u := by
  cases fuel <;> simp [run_to_time, not_lt.mpr h]

/-- On normal exit the loop condition has failed, so the final time is at
least the target. -/
theorem run_to_time_target_le (fuel : ℕ) :
    ∀ (t : ℝ) (u u' : Universe), run_to_time fuel t u = some u' →
      t ≤ u'.current_time := by
  induction fuel with
  | zero =>
      intro t u u' h
      by_cases hc : u.current_time < t
      · simp [run_to_time, hc] at h
      · simp [run_to_time, hc] at h
        rw [← h]
        exact not_lt.mp hc
  | succ n ih =>
      intro t u u' h
      by_cases hc : u.current_time < t
      · rw [show run_to_time (n + 1) t u
            = run_to_time n t (loop_body t u) by simp [run_to_time, hc]] at h
        exact ih t _ u' h
      · simp [run_to_time, hc] at h
        rw [← h]
        exact not_lt.mp hc

/-- Every step of the loop is capped at the target, so the final time never
exceeds max(initial time, target). -/
theorem run_to_time_le_max (fuel : ℕ) :
    ∀ (t : ℝ) (u u' : Universe), run_to_time fuel t u = some u' →
      u'.current_time ≤ max u.current_time t := by
  induction fuel with
  | zero =>
      intro t u u' h
      by_cases hc : u.current_time < t
      · simp [run_to_time, hc] at h
      · simp [run_to_time, hc] at h
        rw [← h]
        exact le_max_left _ _
  | succ n ih =>
      intro t u u' h
      by_cases hc : u.current_time < t
      · rw [show run_to_time (n + 1) t u
            = run_to_time n t (loop_body t u) by simp [run_to_time, hc]] at h
        have hcap : (loop_body t u).current_time ≤ t := by
          rw [loop_body_current_time]
          have := min_le_right (max (u.current_time * 0.01) (u.current_time * 1e-6))
            (t - u.current_time)
          linarith
        have := ih t _ u' h
        have hmax : max (loop_body t u).current_time t = t := max_eq_right hcap
        rw [hmax] at this
        exact this.trans (le_max_right _ _)
      · simp [run_to_time, hc] at h
        rw [← h]
        exact le_max_left _ _

/-- Claim C3: run_to_time is idempotent-forward.  If the current time is
already at least the target, the loop body never runs and the whole state
(time, scale factor, field, history) is returned unchanged; each loop step
is capped so the time never exceeds max(initial, target); and whenever a
call terminates normally, its final time is at least the target, so an
immediate second call with the same target returns the same state with no
further stepping. -/
theorem claim_C3_run_to_time_idempotent :
    ∀ (fuel : ℕ) (t : ℝ) (u : Universe),
      (t ≤ u.current_time → run_to_time fuel t u = some u) ∧
      (u.current_time < t → (loop_body t u).current_time ≤ t) ∧
      (∀ u', run_to_time fuel t u = some u' →
        t ≤ u'.current_time ∧
        u'.current_time ≤ max u.current_time t ∧
        ∀ fuel', run_to_time fuel' t u' = some u') := by
  intro fuel t u
  refine ⟨run_to_time_of_ge fuel t u, ?_, ?_⟩
  · intro _
    rw [loop_body_current_time]
    have := min_le_right (max (u.current_time * 0.01) (u.current_time * 1e-6))
      (t - u.current_time)
    linarith
  · intro u' h
    have hge := run_to_time_target_le fuel t u u' h
    exact ⟨hge, run_to_time_le_max fuel t u u' h,
      fun fuel' => run_to_time_of_ge fuel' t u' hge⟩

/-- Witness for claim C3: the theorem applied at target 3 to the sample
state at time 5, so the loop does not run. -/
theorem claim_C3_witness :
    ((3 : ℝ) ≤ sampleUniverse.current_time ∧
      run_to_time 1 3 sampleUniverse = some sampleUniverse) ∧
    (run_to_time 1 3 sampleUniverse = some sampleUniverse →
      (3 : ℝ) ≤ sampleUniverse.current_time) := by
  have h5 : (3 : ℝ) ≤ sampleUniverse.current_time := by
    show (3 : ℝ) ≤ 5
    norm_num
  exact ⟨⟨h5, (claim_C3_run_to_time_idempotent 1 3 sampleUniverse).1 h5⟩,
    fun h => ((claim_C3_run_to_time_idempotent 1 3 sampleUniverse).2.2 sampleUniverse h).1⟩

/-- A statistics-only snapshot carries no density field. -/
theorem get_current_state_false_field (u : Universe) :
    (get_current_state u false).density_field = none := rfl

/-- A full snapshot carries the density field. -/
theorem get_current_state_true_field (u : Universe) :
    (get_current_state u true).density_field = some u.density_field := rfl

/-- record_state appends at most one statistics-only snapshot. -/
theorem record_state_history (u : Universe) :
    (record_state u).history = u.history ∨
    (record_state u).history = u.history ++ [get_current_state u false] := by
  unfold record_state
  rcases u.history.getLast? with _ | last
  · exact .inr rfl
  · dsimp only
    split
    · exact .inr rfl
    · exact .inl rfl

/-- Every history entry of a normally terminated run either was already
present initially or is a statistics-only snapshot without the field. -/
theorem run_to_time_history (fuel : ℕ) :
    ∀ (t : ℝ) (u u' : Universe), run_to_time fuel t u = some u' →
      ∀ st ∈ u'.history, st ∈ u.history ∨ st.density_field = none := by
  induction fuel with
  | zero =>
      intro t u u' h st hst
      by_cases hc : u.current_time < t
      · simp [run_to_time, hc] at h
      · simp [run_to_time, hc] at h
        rw [← h] at hst
        exact .inl hst
  | succ n ih =>
      intro t u u' h st hst
      by_cases hc : u.current_time < t
      · rw [show run_to_time (n + 1) t u
            = run_to_time n t (loop_body t u) by simp [run_to_time, hc]] at h
        rcases ih t _ u' h st hst with hmem | hnone
        · unfold loop_body at hmem
          rcases record_state_history (step u _) with heq | heq <;> rw [heq] at hmem
          · rw [step_history] at hmem
            exact .inl hmem
          · rcases List.mem_append.mp hmem with hmem' | hmem'
            · rw [step_history] at hmem'
              exact .inl hmem'
            · rcases List.mem_singleton.mp hmem' with rfl
              exact .inr (get_current_state_false_field _)
        · exact .inr hnone
      · simp [run_to_time, hc] at h
        rw [← h] at hst
        exact .inl hst

/-- Claim C9: history entries are statistics-only -- every snapshot the
run loop appends to the retained history has density_field = none -- while
the full field appears exactly in the final snapshot returned at loop exit
and in a current-state snapshot explicitly requested with the field. -/
theorem claim_C9_history_memory_contract :
    (∀ u : Universe, (get_current_state u false).density_field = none) ∧
    (∀ u : Universe, (run_to_time_return u).density_field = some u.density_field) ∧
    (∀ u : Universe, (get_current_state u true).density_field = some u.density_field) ∧
    (∀ (fuel : ℕ) (t : ℝ) (u u' : Universe), run_to_time fuel t u = some u' →
      ∀ st ∈ u'.history, st ∈ u.history ∨ st.density_field = none) :=
  ⟨fun u => get_current_state_false_field u,
   fun u => get_current_state_true_field u,
   fun u => get_current_state_true_field u,
   fun fuel t u u' h => run_to_time_history fuel t u u' h⟩

/-- Witness for claim C9: the theorem applied to a terminating run on the
sample state (target 3, already reached), whose history list is empty. -/
theorem claim_C9_witness :
    (run_to_time 1 3 sampleUniverse = some sampleUniverse) ∧
    (∀ st ∈ sampleUniverse.history, st ∈ sampleUniverse.history ∨
      st.density_field = none) := by
  have h : run_to_time 1 3 sampleUniverse = some sampleUniverse :=
    run_to_time_of_ge 1 3 sampleUniverse (by show (3 : ℝ) ≤ 5; norm_num)
  exact ⟨h, claim_C9_history_memory_contract.2.2.2 1 3 sampleUniverse sampleUniverse h⟩

/-- Claim C10: step advances time by exactly dt, and with a non-negative
dt and a positive scale factor the scale-factor update a + H a dt never
decreases a, because the clamped Hubble parameter is non-negative; folded
over any list of non-negative timesteps, neither time nor scale factor
ever moves backwards. -/
theorem claim_C10_monotone_forward :
    (∀ (u : Universe) (dt : ℝ), 0 ≤ dt → 0 < u.current_scale_factor →
      (step u dt).current_time = u.current_time + dt ∧
      u.current_scale_factor ≤ (step u dt).current_scale_factor) ∧
    (∀ (u : Universe) (dts : List ℝ), (∀ d ∈ dts, 0 ≤ d) →
      0 < u.current_scale_factor →
      u.current_time ≤ (stepSeq u dts).current_time ∧
      u.current_scale_factor ≤ (stepSeq u dts).current_scale_factor) := by
  have hone : ∀ (u : Universe) (dt : ℝ), 0 ≤ dt → 0 < u.current_scale_factor →
      (step u dt).current_time = u.current_time + dt ∧
      u.current_scale_factor ≤ (step u dt).current_scale_factor := by
    intro u dt hdt ha
    refine ⟨step_current_time u dt, ?_⟩
    rw [step_current_scale_factor]
    have hH : 0 ≤ hubble_parameter defaultSolver u.current_scale_factor :=
      Real.sqrt_nonneg _
    have hprod := mul_nonneg (mul_nonneg hH ha.le) hdt
    linarith
  have hseq : ∀ (dts : List ℝ) (u : Universe), (∀ d ∈ dts, 0 ≤ d) →
      0 < u.current_scale_factor →
      u.current_time ≤ (stepSeq u dts).current_time ∧
      u.current_scale_factor ≤ (stepSeq u dts).current_scale_factor := by
    intro dts
    induction dts with
    | nil => exact fun u _ _ => ⟨le_refl _, le_refl _⟩
    | cons d ds ih =>
        intro u hnn ha
        have hd : 0 ≤ d := hnn d (by simp)
        have h1 := hone u d hd ha
        have ha' : 0 < (step u d).current_scale_factor := lt_of_lt_of_le ha h1.2
        have h2 := ih (step u d) (fun x hx => hnn x (by simp [hx])) ha'
        have hrw : stepSeq u (d :: ds) = stepSeq (step u d) ds := rfl
        rw [hrw]
        constructor
        · have ht : u.current_time ≤ (step u d).current_time := by
            rw [h1.1]; linarith
          exact ht.trans h2.1
        · exact h1.2.trans h2.2
  exact ⟨hone, fun u dts h ha => hseq dts u h ha⟩

/-- Witness for claim C10: the theorem applied to the sample state with
dt = 1. -/
theorem claim_C10_witness :
    (0 : ℝ) ≤ 1 ∧ 0 < sampleUniverse.current_scale_factor ∧
    (step sampleUniverse 1).current_time = sampleUniverse.current_time + 1 ∧
    sampleUniverse.current_scale_factor ≤ (step sampleUniverse 1).current_scale_factor := by
  have ha : 0 < sampleUniverse.current_scale_factor := by
    show (0 : ℝ) < 1
    norm_num
  have h := claim_C10_monotone_forward.1 sampleUniverse 1 (by norm_num) ha
  exact ⟨by norm_num, ha, h.1, h.2⟩

/-- Claim C1, amended: the 0.01 positivity floor is enforced only by
apply_gravitational_collapse, and only when the matter fraction is at
least 0.5 (otherwise the procedure returns before reaching the floor);
in the matter-dominated regime every cell of the collapsed field is at
least 0.01.  The evolve update inside step applies no floor, so a cell
can fall below 0.01 in the radiation-dominated era (see the
counterexample). -/
theorem claim_C1_collapse_floor :
    ∀ (u : Universe) (dt : ℝ), 0.5 ≤ matter_fraction u.current_scale_factor →
      ∀ i j k : ℕ, 0.01 ≤ (apply_gravitational_collapse u dt).density_field i j k := by
  intro u dt h i j k
  show 0.01 ≤ collapse_field u dt i j k
  simp only [collapse_field]
  rw [if_neg (not_lt.mpr h)]
  exact le_max_right _ _

/-- Witness for the amended claim C1: the sample state sits at scale
factor 1, deep in the matter-dominated regime, and the theorem applies. -/
theorem claim_C1_witness :
    0.5 ≤ matter_fraction sampleUniverse.current_scale_factor ∧
    0.01 ≤ (apply_gravitational_collapse sampleUniverse 1).density_field 0 0 0 := by
  have hm : 0.5 ≤ matter_fraction sampleUniverse.current_scale_factor := by
    show (0.5 : ℝ) ≤ matter_fraction 1
    unfold matter_fraction density_matter density_radiation
    norm_num [defaultSolver, mkFriedmannSolver, defaultCosmo]
  exact ⟨hm, claim_C1_collapse_floor sampleUniverse 1 hm 0 0 0⟩

/-- The mean absolute contrast is a mean of absolute values, hence
non-negative. -/
theorem delta_mean_abs_nonneg (n : ℕ) (f : ℕ → ℕ → ℕ → ℝ) :
    0 ≤ delta_mean_abs n f := by
  unfold delta_mean_abs fieldMean fieldSum
  apply div_nonneg
  · exact Finset.sum_nonneg fun m _ => abs_nonneg _
  · positivity

/-- With a flat parameter set (Omega_k0 = 0) the Hubble parameter is the
clamped square root of the density term alone. -/
theorem hubble_flat (s : FriedmannSolver ℝ) (a : ℝ) (h : s.params.Omega_k0 = 0) :
    hubble_parameter s a =
      Real.sqrt (max ((8 * Real.pi * s.params.G / 3) * total_density s a) 0) := by
  simp only [hubble_parameter]
  rw [if_neg (by simp [h])]

/-- The default parameter set is flat. -/
theorem defaultSolver_flat : defaultSolver.params.Omega_k0 = 0 := by
  norm_num [defaultSolver, mkFriedmannSolver, defaultCosmo]

/-- With the default parameters the densities today are positive. -/
theorem defaultSolver_rho_m0 : defaultSolver.rho_m0 = (0.315 : ℝ) * 8.5e-27 := rfl

theorem defaultSolver_rho_r0 : defaultSolver.rho_r0 = (9.2e-5 : ℝ) * 8.5e-27 := rfl

theorem defaultSolver_rho_lambda0 : defaultSolver.rho_lambda0 = (0.685 : ℝ) * 8.5e-27 := rfl

/-- With the default parameters the Hubble parameter is strictly positive
at every positive scale factor. -/
theorem hubble_pos_defaults (a : ℝ) (ha : 0 < a) :
    0 < hubble_parameter defaultSolver a := by
  rw [hubble_flat defaultSolver a defaultSolver_flat]
  have hX : 0 < (8 * Real.pi * defaultSolver.params.G / 3) * total_density defaultSolver a := by
    have hG : defaultSolver.params.G = (6.67430e-11 : ℝ) := rfl
    apply mul_pos
    · rw [hG]
      positivity
    · unfold total_density density_matter density_radiation density_dark_energy
      rw [defaultSolver_rho_m0, defaultSolver_rho_r0, defaultSolver_rho_lambda0]
      positivity
  exact Real.sqrt_pos.mpr (lt_max_iff.mpr (Or.inl hX))

/-- The growth rate is strictly positive whenever the Hubble parameter at
the current scale factor is: every branch multiplies H or 0.1 H by a boost
of at least 1. -/
theorem growth_rate_pos (u : Universe)
    (hH : 0 < hubble_parameter defaultSolver u.current_scale_factor) :
    0 < get_perturbation_growth_rate u := by
  simp only [get_perturbation_growth_rate]
  have hdm : 0 ≤ delta_mean_abs u.grid_size u.density_field :=
    delta_mean_abs_nonneg _ _
  split_ifs <;> nlinarith [hH, hdm]

/-- When the matter fraction at the updated scale factor stays below 0.5,
the field produced by step is exactly the evolved field: the collapse
call, if triggered at all, hits its early return and applies no floor. -/
theorem step_field_radiation (u : Universe) (dt : ℝ)
    (h : matter_fraction (u.current_scale_factor
        + hubble_parameter defaultSolver u.current_scale_factor
          * u.current_scale_factor * dt) < 0.5)
    (i j k : ℕ) :
    (step u dt).density_field i j k =
      1 + (u.density_field i j k - 1) *
        (1 + get_perturbation_growth_rate
            ⟨u.current_time + dt,
             u.current_scale_factor
               + hubble_parameter defaultSolver u.current_scale_factor
                 * u.current_scale_factor * dt,
             u.grid_size, u.density_field, u.history⟩ * dt) := by
  simp only [step]
  split
  · simp only [apply_gravitational_collapse, collapse_field]
    rw [if_pos h]
  · rfl

/-- The cell (0,0,0) of the floor-seeded field sits exactly at 0.01. -/
theorem floorUniverse_cell : floorUniverse.density_field 0 0 0 = 0.01 := by
  show seeded_density_field floorNoise 0 0 0 = 0.01
  unfold seeded_density_field floorNoise
  rw [Fin.sum_univ_five]
  norm_num [show ((0 : Fin 5) : ℕ) = 0 from rfl, show ((1 : Fin 5) : ℕ) = 1 from rfl,
    show ((2 : Fin 5) : ℕ) = 2 from rfl, show ((3 : Fin 5) : ℕ) = 3 from rfl,
    show ((4 : Fin 5) : ℕ) = 4 from rfl,
    (by decide : ¬((1 : Fin 5) = 0)), (by decide : ¬((2 : Fin 5) = 0)),
    (by decide : ¬((3 : Fin 5) = 0)), (by decide : ¬((4 : Fin 5) = 0))]

/-- Counterexample for claim C1 as stated: one evolve step in the
radiation-dominated era (scale factor 1e-5) drives a cell that sits
exactly at the 0.01 floor strictly below 0.01 -- the collapse early
return skips the floor, so the invariant is not maintained. -/
theorem claim_C1_counterexample :
    floorUniverse.density_field 0 0 0 = 0.01 ∧
    (step floorUniverse 1).density_field 0 0 0 < 0.01 := by
  refine ⟨floorUniverse_cell, ?_⟩
  have hH0nn : 0 ≤ hubble_parameter defaultSolver (1e-5 : ℝ) := Real.sqrt_nonneg _
  -- numeric bound on the Hubble rate at a = 1e-5
  have htot_nn : 0 ≤ total_density defaultSolver (1e-5 : ℝ) := by
    unfold total_density density_matter density_radiation density_dark_energy
    rw [defaultSolver_rho_m0, defaultSolver_rho_r0, defaultSolver_rho_lambda0]
    positivity
  have htot_le : total_density defaultSolver (1e-5 : ℝ) ≤ 1e-10 := by
    unfold total_density density_matter density_radiation density_dark_energy
    rw [defaultSolver_rho_m0, defaultSolver_rho_r0, defaultSolver_rho_lambda0]
    norm_num
  have hXlt : (8 * Real.pi * defaultSolver.params.G / 3)
      * total_density defaultSolver (1e-5 : ℝ) < 784 := by
    have hG : defaultSolver.params.G = (6.67430e-11 : ℝ) := rfl
    have h1 : 8 * Real.pi * defaultSolver.params.G / 3
        ≤ 32 * (6.67430e-11 : ℝ) / 3 := by
      rw [hG]
      nlinarith [Real.pi_le_four]
    have h2 : 0 ≤ 8 * Real.pi * defaultSolver.params.G / 3 := by
      rw [hG]
      positivity
    calc (8 * Real.pi * defaultSolver.params.G / 3) * total_density defaultSolver (1e-5 : ℝ)
        ≤ (32 * (6.67430e-11 : ℝ) / 3) * total_density defaultSolver (1e-5 : ℝ) :=
          mul_le_mul_of_nonneg_right h1 htot_nn
      _ ≤ (32 * (6.67430e-11 : ℝ) / 3) * 1e-10 :=
          mul_le_mul_of_nonneg_left htot_le (by norm_num)
      _ < 784 := by norm_num
  have hH0lt : hubble_parameter defaultSolver (1e-5 : ℝ) < 28 := by
    rw [hubble_flat defaultSolver _ defaultSolver_flat]
    rw [Real.sqrt_lt' (by norm_num : (0 : ℝ) < 28)]
    have : (28 : ℝ) ^ 2 = 784 := by norm_num
    rw [this]
    exact max_lt hXlt (by norm_num)
  -- the updated scale factor stays radiation dominated
  set A : ℝ := 1e-5 + hubble_parameter defaultSolver (1e-5 : ℝ) * 1e-5 * 1 with hAdef
  have hAlo : (1e-5 : ℝ) ≤ A := by
    rw [hAdef]
    nlinarith [hH0nn]
  have hApos : (0 : ℝ) < A := lt_of_lt_of_le (by norm_num) hAlo
  have hAhi : A < 2.9e-4 := by
    rw [hAdef]
    nlinarith [hH0lt]
  have hmA : density_matter defaultSolver A < density_radiation defaultSolver A := by
    unfold density_matter density_radiation
    rw [div_lt_div_iff₀ (pow_pos hApos 3) (pow_pos hApos 4)]
    have h4 : defaultSolver.rho_m0 * A < defaultSolver.rho_r0 := by
      rw [defaultSolver_rho_m0, defaultSolver_rho_r0]
      nlinarith [hAhi]
    calc defaultSolver.rho_m0 * A ^ 4 = defaultSolver.rho_m0 * A * A ^ 3 := by ring
      _ < defaultSolver.rho_r0 * A ^ 3 := by
          exact mul_lt_mul_of_pos_right h4 (pow_pos hApos 3)
  have hdm_pos : 0 < density_matter defaultSolver A := by
    unfold density_matter
    exact div_pos (by rw [defaultSolver_rho_m0]; norm_num) (pow_pos hApos 3)
  have hdr_pos : 0 < density_radiation defaultSolver A := by
    unfold density_radiation
    exact div_pos (by rw [defaultSolver_rho_r0]; norm_num) (pow_pos hApos 4)
  have hfmA : matter_fraction A < 0.5 := by
    unfold matter_fraction
    have hden : (0 : ℝ) < density_matter defaultSolver A
        + density_radiation defaultSolver A + 1e-100 := by
      have : (0 : ℝ) < 1e-100 := by norm_num
      linarith
    rw [div_lt_iff₀ hden]
    linarith
  -- apply the radiation-era field lemma at the concrete state
  have hstep := step_field_radiation floorUniverse 1 hfmA 0 0 0
  rw [hstep, floorUniverse_cell]
  have hgpos : 0 < get_perturbation_growth_rate
      ⟨floorUniverse.current_time + 1,
       floorUniverse.current_scale_factor
         + hubble_parameter defaultSolver floorUniverse.current_scale_factor
           * floorUniverse.current_scale_factor * 1,
       floorUniverse.grid_size, floorUniverse.density_field, floorUniverse.history⟩ :=
    growth_rate_pos _ (hubble_pos_defaults A hApos)
  nlinarith [hgpos]

end BigBangSim
